import Mathlib

/-!
Shallow embedding of `src/training/advanced_stream/custom_standalone_model/example.py`.

The script is eleven lines of glue code: it constructs a thermal model, wraps a
parameter mapping in a parameter-value object, couples the two in a simulation,
solves over the literal time span `[0, 3600]`, and plots the single output
channel `"Temperature [°C]"`.  The model class (`model.py`), the parameter
provider (`parameter_values.py`) and the whole `pybamm` library are external
collaborators that are not part of the repository source, so their behaviour is
abstracted into an environment of fallible calls; the few facts the
specification states about them are modelled as separate, clearly flagged
predicates and a nominal environment.
-/

/-- Mapping from parameter names to numeric values, as returned by
`get_parameter_values()` and consumed by `pybamm.ParameterValues`. -/
abbrev ParamMap := List (String × Int)

/-- Modelled from the spec: a model handle is an opaque reference to the
predefined thermal model; since the solution later exposes the time-series
trace of all model outputs by name, the handle carries its list of named
output channels and nothing else. -/
structure Model where
  outputs : List String
deriving DecidableEq, Repr

/-- The parameter-value object built by `pybamm.ParameterValues(...)` from a
parameter mapping. -/
structure ParameterValues where
  data : ParamMap
deriving DecidableEq, Repr

/-- The simulation handle: couples a model handle and a parameter-value
object, as `pybamm.Simulation(model, parameter_values=parameter_values)`. -/
structure Simulation where
  model : Model
  parameterValues : ParameterValues
deriving DecidableEq, Repr

/-- Modelled from the spec: a solution holds the covered closed time span and
the named output channels it can be queried by. -/
structure Solution where
  span : List Int
  channels : List String
deriving DecidableEq, Repr

/-- Environment of external calls the script makes.  Each call may fail; a
failure carries the external library's exception, represented as a string.
The fields mirror the arities of the Python calls: `ThermalDFN()` takes no
arguments, `get_parameter_values()` takes no arguments, and so on. -/
structure Env where
  thermalDFN : Except String Model
  getParameterValues : Except String ParamMap
  parameterValues : ParamMap → Except String ParameterValues
  simulation : Model → ParameterValues → Except String Simulation
  solve : Simulation → List Int → Except String Solution
  plot : Simulation → List String → Except String Unit

/-- One external call performed by the script, recorded with its receiver and
arguments.  `callUpdate` exists so that its absence from every trace is a
meaningful statement: the `update(..., check_already_exists=False)` call is
present in the source only as a commented-out line and is never executed. -/
inductive Event where
  | callThermalDFN : Event
  | callGetParameterValues : Event
  | callParameterValues : ParamMap → Event
  | callUpdate : ParamMap → Bool → Event
  | callSimulation : Model → ParameterValues → Event
  | callSolve : Simulation → List Int → Event
  | callPlot : Simulation → List String → Event
deriving DecidableEq, Repr

/-- Position of an event's call in the script's five-stage pipeline; the
provider call and the constructor call of line 8 are both part of the
parameter-set stage. -/
def Event.stage : Event → Nat
  | .callThermalDFN => 0
  | .callGetParameterValues => 1
  | .callParameterValues _ => 2
  | .callUpdate _ _ => 2
  | .callSimulation _ _ => 3
  | .callSolve _ _ => 4
  | .callPlot _ _ => 5

/-- Whether the event is a simulation-constructor call. -/
def Event.isSimulation : Event → Bool
  | .callSimulation _ _ => true
  | _ => false

/-- Whether the event is a solve call. -/
def Event.isSolve : Event → Bool
  | .callSolve _ _ => true
  | _ => false

/-- Whether the event is a plot call. -/
def Event.isPlot : Event → Bool
  | .callPlot _ _ => true
  | _ => false

/-- Whether the event is a parameter-override update call. -/
def Event.isUpdate : Event → Bool
  | .callUpdate _ _ => true
  | _ => false

/-- The model handle the event passes along, if any. -/
def Event.modelOf : Event → Option Model
  | .callSimulation m _ => some m
  | _ => none

/-- The parameter-value object the event passes along, if any. -/
def Event.pvOf : Event → Option ParameterValues
  | .callSimulation _ pv => some pv
  | _ => none

/-- The simulation handle the event is invoked on, if any. -/
def Event.simOf : Event → Option Simulation
  | .callSolve s _ => some s
  | .callPlot s _ => some s
  | _ => none

/-- Time-span literal of line 10, `sim.solve([0, 3600])`. -/
def timeSpan : List Int := [0, 3600]

/-- Output-channel list literal of line 11, `sim.plot(["Temperature [°C]"])`. -/
def plotOutputs : List String := ["Temperature [°C]"]

/-- Result of one run of the script: the ordered trace of external calls it
performed, the result of the solve call when it was reached, and the overall
outcome at the process boundary. -/
structure RunResult where
  trace : List Event
  solveResult : Option (Except String Solution)
  outcome : Except String Unit

/-- Straight-line embedding of lines 5 to 11 of `example.py`, parametrised by
the output-channel list of line 11 so that runs differing only there can be
compared.  Each external call is recorded in order with its arguments; the
first failing call ends the run with its error, exactly as an uncaught Python
exception would, and no later call is performed. -/
def runScriptWith (outs : List String) (env : Env) : RunResult :=
  match env.thermalDFN with
  | .error e => ⟨[.callThermalDFN], none, .error e⟩
  | .ok model =>
    match env.getParameterValues with
    | .error e => ⟨[.callThermalDFN, .callGetParameterValues], none, .error e⟩
    | .ok pmap =>
      match env.parameterValues pmap with
      | .error e =>
        ⟨[.callThermalDFN, .callGetParameterValues, .callParameterValues pmap],
         none, .error e⟩
      | .ok pv =>
        match env.simulation model pv with
        | .error e =>
          ⟨[.callThermalDFN, .callGetParameterValues, .callParameterValues pmap,
            .callSimulation model pv], none, .error e⟩
        | .ok sim =>
          match env.solve sim timeSpan with
          | .error e =>
            ⟨[.callThermalDFN, .callGetParameterValues, .callParameterValues pmap,
              .callSimulation model pv, .callSolve sim timeSpan],
             some (.error e), .error e⟩
          | .ok sol =>
            match env.plot sim outs with
            | .error e =>
              ⟨[.callThermalDFN, .callGetParameterValues, .callParameterValues pmap,
                .callSimulation model pv, .callSolve sim timeSpan, .callPlot sim outs],
               some (.ok sol), .error e⟩
            | .ok _ =>
              ⟨[.callThermalDFN, .callGetParameterValues, .callParameterValues pmap,
                .callSimulation model pv, .callSolve sim timeSpan, .callPlot sim outs],
               some (.ok sol), .ok ()⟩

/-- The script exactly as written, with the literal plot argument of line 11. -/
def runScript (env : Env) : RunResult :=
  runScriptWith plotOutputs env

/-- Outcome the spec prescribes for the script: the external calls in sequence,
any failure propagating directly to the process boundary by monadic error
propagation, with no interception, retry, or validation in between. -/
def scriptExcept (outs : List String) (env : Env) : Except String Unit :=
  Except.bind env.thermalDFN fun model =>
  Except.bind env.getParameterValues fun pmap =>
  Except.bind (env.parameterValues pmap) fun pv =>
  Except.bind (env.simulation model pv) fun sim =>
  Except.bind (env.solve sim timeSpan) fun _sol =>
  env.plot sim outs

/-- Modelled from the spec: `pybamm.Simulation.solve` over a closed time
interval produces a solution covering exactly that interval. -/
def SolveCoversSpan (env : Env) : Prop :=
  ∀ s ts sol, env.solve s ts = .ok sol → sol.span = ts

/-- Modelled from the spec: a solution holds the time-series trace of all
model outputs, so its named channels are exactly the simulated model's named
output channels. -/
def SolveChannels (env : Env) : Prop :=
  ∀ s ts sol, env.solve s ts = .ok sol → sol.channels = s.model.outputs

/-- Modelled from the spec: a simulation handle couples exactly the model
handle and the parameter set it was constructed from. -/
def SimulationCouples (env : Env) : Prop :=
  ∀ m pv s, env.simulation m pv = .ok s → s.model = m ∧ s.parameterValues = pv

/-- Modelled from the spec: the `ThermalDFN` thermal model (defined in
`model.py`, which is not among the source files) exposes a temperature trace
named `"Temperature [°C]"` among its output channels. -/
def TempChannelOutput (env : Env) : Prop :=
  ∀ m, env.thermalDFN = .ok m → "Temperature [°C]" ∈ m.outputs

/-- Modelled from the spec: `get_parameter_values` (defined in
`parameter_values.py`, which is not among the source files) returns a mapping
from named physical quantities, such as a thermal resistance and a thermal
capacitance, to numeric values. -/
def defaultParamMap : ParamMap := [("R_c", 2), ("C_c", 60)]

/-- The model handle of the nominal run: a thermal model exposing the
temperature channel the script plots. -/
def defaultModel : Model := ⟨["Temperature [°C]"]⟩

/-- Modelled from the spec: a nominal environment in which every external call
succeeds, used to evaluate the embedding on a concrete end-to-end run. -/
def defaultEnv : Env where
  thermalDFN := .ok defaultModel
  getParameterValues := .ok defaultParamMap
  parameterValues := fun p => .ok ⟨p⟩
  simulation := fun m pv => .ok ⟨m, pv⟩
  solve := fun s ts => .ok ⟨ts, s.model.outputs⟩
  plot := fun _ _ => .ok ()

/-- Helper: the nominal environment satisfies the covering-span model of
solve. -/
theorem defaultEnv_covers : SolveCoversSpan defaultEnv := by
  intro s ts sol h
  simp only [defaultEnv] at h
  cases h
  rfl

/-- Helper: the nominal environment satisfies the channels model of solve. -/
theorem defaultEnv_channels : SolveChannels defaultEnv := by
  intro s ts sol h
  simp only [defaultEnv] at h
  cases h
  rfl

/-- Helper: the nominal environment's simulation constructor couples its two
arguments. -/
theorem defaultEnv_couples : SimulationCouples defaultEnv := by
  intro m pv s h
  simp only [defaultEnv] at h
  cases h
  exact ⟨rfl, rfl⟩

/-- Helper: the nominal environment's model exposes the temperature channel. -/
theorem defaultEnv_temp : TempChannelOutput defaultEnv := by
  intro m h
  simp only [defaultEnv] at h
  cases h
  simp [defaultModel]

/-- C3: every failure raised by any of the external calls propagates unhandled
to the process boundary: for every environment and every plot argument, the
script's outcome equals the plain monadic composition of the six external
calls, in which the first error wins and nothing intercepts it. -/
theorem external_failures_propagate_unhandled (env : Env) (outs : List String) :
    (runScriptWith outs env).outcome = scriptExcept outs env := by
  cases h1 : env.thermalDFN with
  | error e => simp [runScriptWith, scriptExcept, Except.bind, h1]
  | ok model =>
    cases h2 : env.getParameterValues with
    | error e => simp [runScriptWith, scriptExcept, Except.bind, h1, h2]
    | ok pmap =>
      cases h3 : env.parameterValues pmap with
      | error e => simp [runScriptWith, scriptExcept, Except.bind, h1, h2, h3]
      | ok pv =>
        cases h4 : env.simulation model pv with
        | error e => simp [runScriptWith, scriptExcept, Except.bind, h1, h2, h3, h4]
        | ok sim =>
          cases h5 : env.solve sim timeSpan with
          | error e => simp [runScriptWith, scriptExcept, Except.bind, h1, h2, h3, h4, h5]
          | ok sol =>
            cases h6 : env.plot sim outs with
            | error e => simp [runScriptWith, scriptExcept, Except.bind, h1, h2, h3, h4, h5, h6]
            | ok u => simp [runScriptWith, scriptExcept, Except.bind, h1, h2, h3, h4, h5, h6]

/-- C7: the solve stage does not depend on the plot argument: two runs of the
script that differ only in the output-channel list passed to the plot call
perform the same solve call with the same result, and their traces agree on
every non-plot event. -/
theorem solve_independent_of_plot (env : Env) (outs outs' : List String) :
    (runScriptWith outs env).solveResult = (runScriptWith outs' env).solveResult ∧
    (runScriptWith outs env).trace.filter (fun ev => !ev.isPlot) =
      (runScriptWith outs' env).trace.filter (fun ev => !ev.isPlot) := by
  cases h1 : env.thermalDFN with
  | error e => simp [runScriptWith, h1]
  | ok model =>
    cases h2 : env.getParameterValues with
    | error e => simp [runScriptWith, h1, h2]
    | ok pmap =>
      cases h3 : env.parameterValues pmap with
      | error e => simp [runScriptWith, h1, h2, h3]
      | ok pv =>
        cases h4 : env.simulation model pv with
        | error e => simp [runScriptWith, h1, h2, h3, h4]
        | ok sim =>
          cases h5 : env.solve sim timeSpan with
          | error e => simp [runScriptWith, h1, h2, h3, h4, h5]
          | ok sol =>
            cases h6 : env.plot sim outs with
            | error e =>
              cases h7 : env.plot sim outs' with
              | error e2 => simp [runScriptWith, h1, h2, h3, h4, h5, h6, h7, Event.isPlot]
              | ok u2 => simp [runScriptWith, h1, h2, h3, h4, h5, h6, h7, Event.isPlot]
            | ok u =>
              cases h7 : env.plot sim outs' with
              | error e2 => simp [runScriptWith, h1, h2, h3, h4, h5, h6, h7, Event.isPlot]
              | ok u2 => simp [runScriptWith, h1, h2, h3, h4, h5, h6, h7, Event.isPlot]

/-- C4: when every external call up to solve succeeds, the script's trace is
exactly the straight-line sequence model construction, parameter-provider
call, parameter-set construction, simulation construction, solve, plot, in
this order, with no step reordered, repeated, or skipped. -/
theorem straight_line_call_sequence (env : Env) (m : Model) (pmap : ParamMap)
    (pv : ParameterValues) (sim : Simulation) (sol : Solution)
    (h1 : env.thermalDFN = .ok m) (h2 : env.getParameterValues = .ok pmap)
    (h3 : env.parameterValues pmap = .ok pv) (h4 : env.simulation m pv = .ok sim)
    (h5 : env.solve sim timeSpan = .ok sol) :
    (runScript env).trace =
      [.callThermalDFN, .callGetParameterValues, .callParameterValues pmap,
       .callSimulation m pv, .callSolve sim timeSpan, .callPlot sim plotOutputs] := by
  cases h6 : env.plot sim plotOutputs <;>
    simp [runScript, runScriptWith, h1, h2, h3, h4, h5, h6]

/-- Witness: on the nominal environment the trace is the full six-call
straight line. -/
theorem straight_line_call_sequence_witness :
    (runScript defaultEnv).trace =
      [Event.callThermalDFN, Event.callGetParameterValues,
       Event.callParameterValues defaultParamMap,
       Event.callSimulation defaultModel ⟨defaultParamMap⟩,
       Event.callSolve ⟨defaultModel, ⟨defaultParamMap⟩⟩ timeSpan,
       Event.callPlot ⟨defaultModel, ⟨defaultParamMap⟩⟩ plotOutputs] :=
  straight_line_call_sequence defaultEnv defaultModel defaultParamMap ⟨defaultParamMap⟩
    ⟨defaultModel, ⟨defaultParamMap⟩⟩ ⟨timeSpan, defaultModel.outputs⟩ rfl rfl rfl rfl rfl

/-- C1: once the simulation is constructed, the script performs exactly one
solve call, whose only argument is the literal time span `[0, 3600]`, and
under the spec's model of solve the produced solution covers exactly that
span. -/
theorem solve_called_once_over_timespan (env : Env) (m : Model) (pmap : ParamMap)
    (pv : ParameterValues) (sim : Simulation)
    (hcover : SolveCoversSpan env)
    (h1 : env.thermalDFN = .ok m) (h2 : env.getParameterValues = .ok pmap)
    (h3 : env.parameterValues pmap = .ok pv) (h4 : env.simulation m pv = .ok sim) :
    (runScript env).trace.filter Event.isSolve = [Event.callSolve sim timeSpan] ∧
    ∀ sol, (runScript env).solveResult = some (.ok sol) → sol.span = timeSpan := by
  cases h5 : env.solve sim timeSpan with
  | error e =>
    refine ⟨?_, ?_⟩
    · simp [runScript, runScriptWith, h1, h2, h3, h4, h5, Event.isSolve]
    · intro sol hsol
      simp [runScript, runScriptWith, h1, h2, h3, h4, h5] at hsol
  | ok sol' =>
    cases h6 : env.plot sim plotOutputs with
    | error e =>
      refine ⟨?_, ?_⟩
      · simp [runScript, runScriptWith, h1, h2, h3, h4, h5, h6, Event.isSolve, Event.isPlot]
      · intro sol hsol
        simp [runScript, runScriptWith, h1, h2, h3, h4, h5, h6] at hsol
        exact hsol ▸ hcover sim timeSpan sol' h5
    | ok u =>
      refine ⟨?_, ?_⟩
      · simp [runScript, runScriptWith, h1, h2, h3, h4, h5, h6, Event.isSolve, Event.isPlot]
      · intro sol hsol
        simp [runScript, runScriptWith, h1, h2, h3, h4, h5, h6] at hsol
        exact hsol ▸ hcover sim timeSpan sol' h5

/-- Witness: on the nominal environment the single solve call is over
`[0, 3600]` and the produced solution's span is `[0, 3600]`. -/
theorem solve_called_once_over_timespan_witness :
    (runScript defaultEnv).trace.filter Event.isSolve =
      [Event.callSolve ⟨defaultModel, ⟨defaultParamMap⟩⟩ timeSpan] ∧
    (Solution.mk timeSpan defaultModel.outputs).span = timeSpan :=
  have h := solve_called_once_over_timespan defaultEnv defaultModel defaultParamMap
    ⟨defaultParamMap⟩ ⟨defaultModel, ⟨defaultParamMap⟩⟩ defaultEnv_covers rfl rfl rfl rfl
  ⟨h.1, h.2 ⟨timeSpan, defaultModel.outputs⟩ rfl⟩

/-- C2: once the solve call has succeeded, the script performs exactly one
plot call, requesting exactly the one-element output-channel list
`["Temperature [°C]"]` and nothing else. -/
theorem plot_called_once_with_temperature (env : Env) (m : Model) (pmap : ParamMap)
    (pv : ParameterValues) (sim : Simulation) (sol : Solution)
    (h1 : env.thermalDFN = .ok m) (h2 : env.getParameterValues = .ok pmap)
    (h3 : env.parameterValues pmap = .ok pv) (h4 : env.simulation m pv = .ok sim)
    (h5 : env.solve sim timeSpan = .ok sol) :
    (runScript env).trace.filter Event.isPlot = [Event.callPlot sim plotOutputs] := by
  cases h6 : env.plot sim plotOutputs <;>
    simp [runScript, runScriptWith, h1, h2, h3, h4, h5, h6, Event.isPlot]

/-- Witness: on the nominal environment the single plot call requests exactly
`["Temperature [°C]"]`. -/
theorem plot_called_once_with_temperature_witness :
    (runScript defaultEnv).trace.filter Event.isPlot =
      [Event.callPlot ⟨defaultModel, ⟨defaultParamMap⟩⟩ plotOutputs] :=
  plot_called_once_with_temperature defaultEnv defaultModel defaultParamMap
    ⟨defaultParamMap⟩ ⟨defaultModel, ⟨defaultParamMap⟩⟩ ⟨timeSpan, defaultModel.outputs⟩
    rfl rfl rfl rfl rfl

/-- C5: the simulation constructor is called exactly once, on exactly the
model handle returned by the model constructor and the parameter-value object
returned by the parameter-set constructor, and the simulation it returns is
the receiver of both the solve call and the plot call. -/
theorem simulation_couples_constructed_objects (env : Env) (m : Model) (pmap : ParamMap)
    (pv : ParameterValues) (sim : Simulation) (sol : Solution)
    (h1 : env.thermalDFN = .ok m) (h2 : env.getParameterValues = .ok pmap)
    (h3 : env.parameterValues pmap = .ok pv) (h4 : env.simulation m pv = .ok sim)
    (h5 : env.solve sim timeSpan = .ok sol) :
    (runScript env).trace.filter Event.isSimulation = [Event.callSimulation m pv] ∧
    (runScript env).trace.filter Event.isSolve = [Event.callSolve sim timeSpan] ∧
    (runScript env).trace.filter Event.isPlot = [Event.callPlot sim plotOutputs] := by
  cases h6 : env.plot sim plotOutputs <;>
    exact ⟨by simp [runScript, runScriptWith, h1, h2, h3, h4, h5, h6, Event.isSimulation],
           by simp [runScript, runScriptWith, h1, h2, h3, h4, h5, h6, Event.isSolve],
           by simp [runScript, runScriptWith, h1, h2, h3, h4, h5, h6, Event.isPlot]⟩

/-- Witness: on the nominal environment the simulation is built from the
constructed model and parameter-value object and receives solve and plot. -/
theorem simulation_couples_constructed_objects_witness :
    (runScript defaultEnv).trace.filter Event.isSimulation =
      [Event.callSimulation defaultModel ⟨defaultParamMap⟩] ∧
    (runScript defaultEnv).trace.filter Event.isSolve =
      [Event.callSolve ⟨defaultModel, ⟨defaultParamMap⟩⟩ timeSpan] ∧
    (runScript defaultEnv).trace.filter Event.isPlot =
      [Event.callPlot ⟨defaultModel, ⟨defaultParamMap⟩⟩ plotOutputs] :=
  simulation_couples_constructed_objects defaultEnv defaultModel defaultParamMap
    ⟨defaultParamMap⟩ ⟨defaultModel, ⟨defaultParamMap⟩⟩ ⟨timeSpan, defaultModel.outputs⟩
    rfl rfl rfl rfl rfl

/-- C6: the parameter-value object is built solely from the mapping returned
by the external provider: the run contains no parameter-override update call,
and every parameter-set constructor call in the trace receives exactly the
provider's mapping. -/
theorem parameter_set_from_provider_without_update (env : Env) (pmap : ParamMap)
    (h : env.getParameterValues = .ok pmap) :
    (runScript env).trace.filter Event.isUpdate = [] ∧
    ∀ q, Event.callParameterValues q ∈ (runScript env).trace → q = pmap := by
  unfold runScript runScriptWith
  refine ⟨?_, ?_⟩
  · repeat' split
    all_goals simp_all [Event.isUpdate]
  · intro q
    repeat' split
    all_goals simp_all

/-- Witness: on the nominal environment no update call appears and the
parameter-set constructor receives the provider's mapping. -/
theorem parameter_set_from_provider_without_update_witness :
    (runScript defaultEnv).trace.filter Event.isUpdate = [] ∧
    defaultParamMap = defaultParamMap :=
  have h := parameter_set_from_provider_without_update defaultEnv defaultParamMap rfl
  ⟨h.1, h.2 defaultParamMap (by decide)⟩

/-- C9: the model constructor, which takes no arguments, is the first call
performed by the script, and the model handle it returns is the one the
script passes to the simulation constructor for the remainder of the run. -/
theorem model_constructed_without_arguments (env : Env) (m : Model)
    (h : env.thermalDFN = .ok m) :
    (runScript env).trace.head? = some Event.callThermalDFN ∧
    ∀ m' pv', Event.callSimulation m' pv' ∈ (runScript env).trace → m' = m := by
  unfold runScript runScriptWith
  refine ⟨?_, ?_⟩
  · repeat' split
    all_goals rfl
  · intro m' pv'
    repeat' split
    all_goals simp_all

/-- Witness: on the nominal environment the first call is the nullary model
constructor and the simulation receives the constructed model. -/
theorem model_constructed_without_arguments_witness :
    (runScript defaultEnv).trace.head? = some Event.callThermalDFN ∧
    defaultModel = defaultModel :=
  have h := model_constructed_without_arguments defaultEnv defaultModel rfl
  ⟨h.1, h.2 defaultModel ⟨defaultParamMap⟩ (by decide)⟩

/-- C10: the script never mutates what it constructs: every occurrence of a
model handle, parameter-value object, or simulation handle in the trace is
exactly the value the corresponding constructor returned, unchanged between
construction and use. -/
theorem script_passes_objects_unmodified (env : Env) (m : Model) (pmap : ParamMap)
    (pv : ParameterValues) (sim : Simulation)
    (h1 : env.thermalDFN = .ok m) (h2 : env.getParameterValues = .ok pmap)
    (h3 : env.parameterValues pmap = .ok pv) (h4 : env.simulation m pv = .ok sim) :
    (∀ ev ∈ (runScript env).trace, ∀ x, ev.modelOf = some x → x = m) ∧
    (∀ ev ∈ (runScript env).trace, ∀ x, ev.pvOf = some x → x = pv) ∧
    (∀ ev ∈ (runScript env).trace, ∀ x, ev.simOf = some x → x = sim) := by
  unfold runScript runScriptWith
  refine ⟨?_, ?_, ?_⟩ <;>
  · intro ev hev x hx
    cases ev <;>
      simp only [Event.modelOf, Event.pvOf, Event.simOf, Option.some.injEq,
        reduceCtorEq] at hx <;>
      subst hx <;>
      (repeat' split at hev) <;>
      simp_all

/-- Witness: on the nominal environment the objects in the trace are the
constructed ones. -/
theorem script_passes_objects_unmodified_witness :
    defaultModel = defaultModel ∧
    (⟨defaultParamMap⟩ : ParameterValues) = ⟨defaultParamMap⟩ ∧
    (⟨defaultModel, ⟨defaultParamMap⟩⟩ : Simulation) = ⟨defaultModel, ⟨defaultParamMap⟩⟩ :=
  have h := script_passes_objects_unmodified defaultEnv defaultModel defaultParamMap
    ⟨defaultParamMap⟩ ⟨defaultModel, ⟨defaultParamMap⟩⟩ rfl rfl rfl rfl
  ⟨h.1 (Event.callSimulation defaultModel ⟨defaultParamMap⟩) (by decide) defaultModel rfl,
   h.2.1 (Event.callSimulation defaultModel ⟨defaultParamMap⟩) (by decide) ⟨defaultParamMap⟩ rfl,
   h.2.2 (Event.callSolve ⟨defaultModel, ⟨defaultParamMap⟩⟩ timeSpan) (by decide)
     ⟨defaultModel, ⟨defaultParamMap⟩⟩ rfl⟩

/-- C8: under the spec's model of the external collaborators, once the solve
call has produced a solution, the channel `"Temperature [°C]"` is among the
solution's named channels, so every channel the subsequent plot call requests
exists in the solution. -/
theorem temperature_channel_present_for_plot (env : Env) (m : Model) (pmap : ParamMap)
    (pv : ParameterValues) (sim : Simulation) (sol : Solution)
    (hch : SolveChannels env) (hcpl : SimulationCouples env) (htmp : TempChannelOutput env)
    (h1 : env.thermalDFN = .ok m) (h2 : env.getParameterValues = .ok pmap)
    (h3 : env.parameterValues pmap = .ok pv) (h4 : env.simulation m pv = .ok sim)
    (hsr : (runScript env).solveResult = some (.ok sol)) :
    "Temperature [°C]" ∈ sol.channels ∧ ∀ o ∈ plotOutputs, o ∈ sol.channels := by
  have h5 : env.solve sim timeSpan = .ok sol := by
    cases h5x : env.solve sim timeSpan with
    | error e => simp [runScript, runScriptWith, h1, h2, h3, h4, h5x] at hsr
    | ok sol' =>
      cases h6 : env.plot sim plotOutputs with
      | error e =>
        simp [runScript, runScriptWith, h1, h2, h3, h4, h5x, h6] at hsr
        rw [hsr]
      | ok u =>
        simp [runScript, runScriptWith, h1, h2, h3, h4, h5x, h6] at hsr
        rw [hsr]
  have hm : sim.model = m := (hcpl m pv sim h4).1
  have hchan : sol.channels = sim.model.outputs := hch sim timeSpan sol h5
  have htm : "Temperature [°C]" ∈ m.outputs := htmp m h1
  refine ⟨?_, ?_⟩
  · rw [hchan, hm]
    exact htm
  · intro o ho
    simp only [plotOutputs, List.mem_singleton] at ho
    subst ho
    rw [hchan, hm]
    exact htm

/-- Witness: on the nominal environment the temperature channel is in the
produced solution's channels. -/
theorem temperature_channel_present_for_plot_witness :
    "Temperature [°C]" ∈ Solution.channels ⟨timeSpan, defaultModel.outputs⟩ :=
  (temperature_channel_present_for_plot defaultEnv defaultModel defaultParamMap
    ⟨defaultParamMap⟩ ⟨defaultModel, ⟨defaultParamMap⟩⟩ ⟨timeSpan, defaultModel.outputs⟩
    defaultEnv_channels defaultEnv_couples defaultEnv_temp rfl rfl rfl rfl rfl).1
